import Mathlib

/-!
Shallow embedding of `src/main.py` of the reverse-osmosis-filtration-pump-diy
repository: a MicroPython controller for a pump, four valves and a single
button, structured as cooperative `uasyncio` coroutines.

Modelling conventions:
* The physical valve layout is abstracted to the five presets the code uses
  (`close_valves`, `close_inlet_valve`, `set_valves_to_flush`,
  `set_valves_to_disposal`, `set_valves_to_filter`); the four raw pins of
  `_set_valves` determine the preset uniquely, so the preset is the state.
* The clock is modelled in integer milliseconds; `time.time()` (whole
  seconds) is `clock / 1000`, and `time.ticks_ms` differences are plain
  millisecond integers.
* Each `async def` sequence is embedded as a `Prog` term: atomic actuator /
  timestamp writes (`Op`), waits (`uasyncio.sleep` / `sleep_ms`), sequencing,
  and `try ... finally` blocks.  Cancellation follows Python semantics: a
  `cancel()` raises at the task's current (or next) suspension point,
  pending code is discarded, every enclosing `finally` block runs normally
  (including its own awaits), and an exception raised while a `finally`
  block is suspended aborts the remainder of that block while outer
  `finally` blocks still run.
* The configuration dictionary is an association list `String × Int`
  (all nine fields of `CONFIG` are integers); `dict.update` and
  `ujson.dumps`-to-file are modelled structurally.
-/

namespace RoPump

/-- The five valve presets of the source (`close_valves` = Closed,
`close_inlet_valve` = Drain, and the three `set_valves_to_*` layouts). -/
inductive Layout where
  | closed | drain | flush | disposal | filter
  deriving DecidableEq, Repr

/-- The value of the global `running_task_type` string. -/
inductive TType where
  | flushing | filtering
  deriving DecidableEq, Repr

/-- A classified button press (`short_pressed` / `long_pressed` /
`super_long_pressed` in `handle_button`). -/
inductive Press where
  | short | long | superLong
  deriving DecidableEq, Repr

/-- The atomic statements the coroutines execute between suspension points. -/
inductive Op where
  | toFlush      -- set_valves_to_flush()
  | toDisposal   -- set_valves_to_disposal()
  | toFilter     -- set_valves_to_filter()
  | closeValves  -- close_valves()
  | closeInlet   -- close_inlet_valve()
  | pumpOn       -- set_pump(True)
  | pumpOff      -- set_pump(False)
  | recFlush     -- last_flush = time.time()
  | recFilterEnd -- last_filtering = time.time()
  | markStart    -- start_filtering = time.time()
  | setTypeFlushing   -- running_task_type = 'FLUSHING'
  | setTypeFiltering  -- running_task_type = 'FILTERING'
  deriving DecidableEq, Repr

/-- The mutable global state the sequences touch: actuators
(`PIN_PUMP`, valve preset), the timing store (`last_flush`,
`last_filtering`, `start_filtering`, in seconds), `running_task_type`,
the clock (milliseconds), a count of emitted safety-shutdown messages
(`'Pump has not been turned off yet. Safety shut down!'`), and the trace
of executed atomic statements (most recent first). -/
structure St where
  pump : Bool
  layout : Layout
  lastFlush : Int
  lastFiltering : Int
  startFiltering : Int
  taskType : Option TType
  clock : Int
  safetyCount : Nat
  trace : List Op
  deriving DecidableEq, Repr

/-- `time.time()` in the model: whole seconds. -/
def St.now (s : St) : Int := s.clock / 1000

/-- `close_valves()`: if the pump pin is still on, print the safety
shut-down message and force it off; then `_set_valves(False,False,False,False)`
(the Closed preset). -/
def close_valves (s : St) : St :=
  let s :=
    if s.pump then
      { s with pump := false, safetyCount := s.safetyCount + 1 }
    else s
  { s with layout := Layout.closed }

/-- `close_inlet_valve()`: same pump-safety check, then
`_set_valves(False,True,False,False)` (the Drain preset). -/
def close_inlet_valve (s : St) : St :=
  let s :=
    if s.pump then
      { s with pump := false, safetyCount := s.safetyCount + 1 }
    else s
  { s with layout := Layout.drain }

/-- `set_valves_to_flush()`. -/
def set_valves_to_flush (s : St) : St := { s with layout := Layout.flush }

/-- `set_valves_to_disposal()`. -/
def set_valves_to_disposal (s : St) : St := { s with layout := Layout.disposal }

/-- `set_valves_to_filter()`. -/
def set_valves_to_filter (s : St) : St := { s with layout := Layout.filter }

/-- `set_pump(p)`. -/
def set_pump (p : Bool) (s : St) : St := { s with pump := p }

/-- Effect of one atomic statement on the global state (the statement is
also recorded in the trace). -/
def applyOp (o : Op) (s : St) : St :=
  let s := { s with trace := o :: s.trace }
  match o with
  | Op.toFlush => set_valves_to_flush s
  | Op.toDisposal => set_valves_to_disposal s
  | Op.toFilter => set_valves_to_filter s
  | Op.closeValves => close_valves s
  | Op.closeInlet => close_inlet_valve s
  | Op.pumpOn => set_pump true s
  | Op.pumpOff => set_pump false s
  | Op.recFlush => { s with lastFlush := s.now }
  | Op.recFilterEnd => { s with lastFiltering := s.now }
  | Op.markStart => { s with startFiltering := s.now }
  | Op.setTypeFlushing => { s with taskType := some TType.flushing }
  | Op.setTypeFiltering => { s with taskType := some TType.filtering }

/-! ## Configuration file handling (`CONFIG`, `read_config`, `write_config`) -/

/-- A JSON configuration object, as an ordered association list (all
`CONFIG` values in the source are integers). -/
abbrev Cfg := List (String × Int)

/-- The compiled-in `CONFIG` defaults of the source. -/
def defaultConfig : Cfg :=
  [("pre_flush_sec", 10), ("post_flush_sec", 30), ("long_flush_sec", 15 * 60),
   ("disposal_sec", 60), ("filter_sec", 12 * 60), ("auto_flush_sec", 8 * 60 * 60),
   ("water_clean_sec", 5 * 60), ("buzzer_frequency", 1500), ("pump_switch_delay", 1000)]

/-- `d[k] = v` on a Python dict: overwrite the key in place if present,
otherwise append it. -/
def setKey (d : Cfg) (k : String) (v : Int) : Cfg :=
  if d.any (fun kv => kv.1 = k) then
    d.map (fun kv => if kv.1 = k then (k, v) else kv)
  else d ++ [(k, v)]

/-- `d.update(other)` on Python dicts: assign every key of `other` into
`d` in order. -/
def dictUpdate (d other : Cfg) : Cfg :=
  other.foldl (fun acc kv => setKey acc kv.1 kv.2) d

/-- `CONFIG[k]` lookup (every key the program reads is present in
`defaultConfig`, hence in every updated dict; `0` is a dead default). -/
def cfgGet (c : Cfg) (k : String) : Int :=
  ((c.find? (fun kv => kv.1 = k)).map Prod.snd).getD 0

/-- Condition of the external `config.json` file when it is read. -/
inductive FileState where
  | absent              -- `open` raises OSError
  | corrupt             -- the file opens but `ujson.loads` raises ValueError
  | valid (m : Cfg)     -- the file parses to the JSON object `m`
  deriving DecidableEq, Repr

/-- Errors that can escape `read_config`. -/
inductive PyError where
  | valueError
  deriving DecidableEq, Repr

/-- `read_config()`: `try: open(...); ujson.loads(...) except OSError: pass;
return {}`.  A missing/inaccessible file raises `OSError`, which is caught
and yields the empty dict; corrupt contents make `ujson.loads` raise
`ValueError`, which the `except OSError` clause does not catch, so it
propagates to the caller. -/
def read_config : FileState → Except PyError Cfg
  | FileState.absent => Except.ok []
  | FileState.corrupt => Except.error PyError.valueError
  | FileState.valid m => Except.ok m

/-- `write_config(config)`: the file afterwards holds
`ujson.dumps(config)`, i.e. the whole dictionary passed in. -/
def write_config (config : Cfg) : Cfg := config

/-- The configuration-loading part of `init()`:
`CONFIG.update(read_config())`.  Propagates whatever `read_config`
raises. -/
def init_config (fs : FileState) : Except PyError Cfg :=
  (read_config fs).map (fun m => dictUpdate defaultConfig m)

/-- Button-press classification of `handle_button`:
`super_long_pressed = ms_duration >= 5000`,
`long_pressed = 800 < ms_duration < 5000`, everything else is a short
press (the `else` branch). -/
def classify (msDuration : Int) : Press :=
  if msDuration ≥ 5000 then Press.superLong
  else if 800 < msDuration ∧ msDuration < 5000 then Press.long
  else Press.short

/-! ## Coroutine embedding

Every `async def` sequence of the source is a `Prog`: atomic statements,
waits (`uasyncio.sleep` / `sleep_ms`, in milliseconds), sequencing, and
`try ... finally`.  The small-step machine below implements Python's
cancellation semantics (see the header comment). -/

/-- A coroutine body. -/
inductive Prog where
  | skip
  | op (o : Op)
  | wait (ms : Int)
  | seq (p q : Prog)
  | tryFin (body fin : Prog)
  deriving DecidableEq, Repr

/-- Continuation frames: pending code after a `seq`, a pending `finally`
block, and a marker recording that after the current `finally` block
finishes, cancellation unwinding resumes. -/
inductive Frame where
  | kSeq (p : Prog)
  | kFin (f : Prog)
  | kCancel
  deriving DecidableEq, Repr

/-- A task that has been cancelled is `unwinding`: it discards pending
code but still runs every enclosing `finally` block. -/
inductive Mode where
  | normal | unwinding
  deriving DecidableEq, Repr

/-- The resumable part of a task: current program fragment, continuation
stack, and whether a cancellation is unwinding through it. -/
structure TaskExec where
  cur : Prog
  stack : List Frame
  mode : Mode
  deriving DecidableEq, Repr

/-- Result of one small step of a task: it finished, it parked on a wait
of `ms` milliseconds, or it continues immediately. -/
inductive StepRes where
  | finished (s : St)
  | park (e : TaskExec) (ms : Int) (s : St)
  | cont (e : TaskExec) (s : St)
  deriving DecidableEq, Repr

/-- One small step.  `wait` parks (the driver decides whether the wait
completes or a cancellation arrives during it). -/
def stepTask (e : TaskExec) (s : St) : StepRes :=
  match e.mode, e.cur, e.stack with
  | Mode.normal, Prog.skip, [] => StepRes.finished s
  | Mode.normal, Prog.skip, Frame.kSeq p :: k =>
      StepRes.cont ⟨p, k, Mode.normal⟩ s
  | Mode.normal, Prog.skip, Frame.kFin f :: k =>
      StepRes.cont ⟨f, k, Mode.normal⟩ s
  | Mode.normal, Prog.skip, Frame.kCancel :: k =>
      -- a finally block entered because of cancellation has finished:
      -- resume unwinding
      StepRes.cont ⟨Prog.skip, k, Mode.unwinding⟩ s
  | Mode.unwinding, Prog.skip, [] => StepRes.finished s
  | Mode.unwinding, Prog.skip, Frame.kSeq _ :: k =>
      -- cancellation discards pending code
      StepRes.cont ⟨Prog.skip, k, Mode.unwinding⟩ s
  | Mode.unwinding, Prog.skip, Frame.kFin f :: k =>
      -- ... but every enclosing finally block still runs, normally
      StepRes.cont ⟨f, Frame.kCancel :: k, Mode.normal⟩ s
  | Mode.unwinding, Prog.skip, Frame.kCancel :: k =>
      StepRes.cont ⟨Prog.skip, k, Mode.unwinding⟩ s
  | m, Prog.op o, k => StepRes.cont ⟨Prog.skip, k, m⟩ (applyOp o s)
  | m, Prog.wait d, k => StepRes.park ⟨Prog.skip, k, m⟩ d s
  | m, Prog.seq p q, k => StepRes.cont ⟨p, Frame.kSeq q :: k, m⟩ s
  | m, Prog.tryFin p f, k => StepRes.cont ⟨p, Frame.kFin f :: k, m⟩ s

/-- State of a single-task run: the task, the globals, how many waits have
been encountered so far, and whether the coroutine has terminated. -/
structure RunSt where
  exec : TaskExec
  st : St
  waits : Nat
  finished : Bool
  deriving DecidableEq, Repr

/-- One driver step of a single task.  `ci` is the ordinal of the wait at
which a (single) cancellation arrives: when the task parks on its `ci`-th
wait, the clock advances only by `e` milliseconds (the portion of the wait
that elapsed before the cancellation was delivered) and the task starts
unwinding; every other wait completes and advances the clock by its full
duration. -/
def runStep (ci : Option Nat) (e : Int) (r : RunSt) : RunSt :=
  if r.finished then r else
  match stepTask r.exec r.st with
  | StepRes.finished s => { r with st := s, finished := true }
  | StepRes.cont ex s => { r with exec := ex, st := s }
  | StepRes.park ex d s =>
      if ci = some r.waits then
        { exec := { ex with mode := Mode.unwinding },
          st := { s with clock := s.clock + e }, waits := r.waits + 1, finished := false }
      else
        { exec := ex, st := { s with clock := s.clock + d },
          waits := r.waits + 1, finished := false }

/-- Iterate `runStep` (the fuel only needs to exceed the finite number of
small steps of the concrete programs below). -/
def runFuel (ci : Option Nat) (e : Int) : Nat → RunSt → RunSt
  | 0, r => r
  | n + 1, r => if r.finished then r else runFuel ci e n (runStep ci e r)

/-- Run a coroutine to completion from state `s`, delivering one
cancellation at its `ci`-th wait (after `e` ms of that wait) when
`ci` is not `none`. -/
def runSeq (p : Prog) (ci : Option Nat) (e : Int) (s : St) : RunSt :=
  runFuel ci e 200 ⟨⟨p, [], Mode.normal⟩, s, 0, false⟩

/-- Result of running one coroutine to completion in isolation: the final
globals, whether a delivered cancellation is still propagating out of the
coroutine when it terminates, and how many waits were encountered. -/
structure ERes where
  st : St
  cancelled : Bool
  waits : Nat
  deriving DecidableEq, Repr

/-- Big-step denotation of one coroutine run in isolation (no other task
interleaves), recursing on the program structure; equivalent to driving
`stepTask` to completion (see `runSeq_agrees_runCoro` below).
A single cancellation is delivered at the `ci`-th wait, after `e` ms of
that wait have elapsed.  Python semantics: code after the cancellation
point is skipped; a `try` whose body the cancellation escapes runs its
`finally` block normally, after which the cancellation continues
propagating; a `try` reached while the cancellation is already
propagating (or abandoned before its body began) does not run at all,
including its `finally`. -/
def runProg (ci : Option Nat) (e : Int) : Prog → ERes → ERes
  | Prog.skip, r => r
  | Prog.op o, r => if r.cancelled then r else { r with st := applyOp o r.st }
  | Prog.wait d, r =>
      if r.cancelled then r
      else if ci = some r.waits then
        { st := { r.st with clock := r.st.clock + e }, cancelled := true, waits := r.waits + 1 }
      else
        { r with st := { r.st with clock := r.st.clock + d }, waits := r.waits + 1 }
  | Prog.seq p q, r => runProg ci e q (runProg ci e p r)
  | Prog.tryFin p f, r =>
      if r.cancelled then r
      else
        let rb := runProg ci e p r
        if rb.cancelled then
          let rf := runProg ci e f { rb with cancelled := false }
          { rf with cancelled := true }
        else
          runProg ci e f rb

/-- Run a coroutine in isolation from state `s`, delivering one
cancellation at its `ci`-th wait (after `e` ms of that wait) when `ci`
is not `none`. -/
def runCoro (p : Prog) (ci : Option Nat) (e : Int) (s : St) : ERes :=
  runProg ci e p ⟨s, false, 0⟩

/-- Right-nested sequencing of a list of fragments. -/
def pseq : List Prog → Prog
  | [] => Prog.skip
  | [p] => p
  | p :: ps => Prog.seq p (pseq ps)

/-! ## The four operation sequences of the source -/

/-- `pre_flush_filter()`: sets `running_task_type = 'FLUSHING'`, then
`try:` flush layout, `sleep_ms(pump_switch_delay)`, pump on,
`sleep(pre_flush_sec)`, disposal layout, `sleep(disposal_sec)`;
`finally: pass`. -/
def pre_flush_filter (c : Cfg) : Prog :=
  Prog.seq (Prog.op Op.setTypeFlushing) (Prog.tryFin
    (pseq [Prog.op Op.toFlush, Prog.wait (cfgGet c "pump_switch_delay"),
           Prog.op Op.pumpOn, Prog.wait (1000 * cfgGet c "pre_flush_sec"),
           Prog.op Op.toDisposal, Prog.wait (1000 * cfgGet c "disposal_sec")])
    Prog.skip)

/-- `post_flush_filter()`: sets `running_task_type = 'FLUSHING'`, then
`try:` flush layout, `sleep(post_flush_sec)`; `finally:`
`last_flush = time.time()`. -/
def post_flush_filter (c : Cfg) : Prog :=
  Prog.seq (Prog.op Op.setTypeFlushing) (Prog.tryFin
    (pseq [Prog.op Op.toFlush, Prog.wait (1000 * cfgGet c "post_flush_sec")])
    (Prog.op Op.recFlush))

/-- `long_flush_filter()`: sets `running_task_type = 'FLUSHING'`, then
`try:` flush layout, `sleep(long_flush_sec)`; `finally:`
`last_flush = time.time()`. -/
def long_flush_filter (c : Cfg) : Prog :=
  Prog.seq (Prog.op Op.setTypeFlushing) (Prog.tryFin
    (pseq [Prog.op Op.toFlush, Prog.wait (1000 * cfgGet c "long_flush_sec")])
    (Prog.op Op.recFlush))

/-- `auto_flush_filter()`: sets `running_task_type = 'FLUSHING'`, then
`try:` flush layout, `sleep_ms(pump_switch_delay)`, pump on,
`sleep(pre_flush_sec)`, disposal, `sleep(disposal_sec)`, flush,
`sleep(post_flush_sec)`, pump off, `sleep_ms(pump_switch_delay)`,
`close_inlet_valve()`, `sleep_ms(2000)`, `close_valves()`;
`finally:` `last_flush = time.time()`. -/
def auto_flush_filter (c : Cfg) : Prog :=
  Prog.seq (Prog.op Op.setTypeFlushing) (Prog.tryFin
    (pseq [Prog.op Op.toFlush, Prog.wait (cfgGet c "pump_switch_delay"),
           Prog.op Op.pumpOn, Prog.wait (1000 * cfgGet c "pre_flush_sec"),
           Prog.op Op.toDisposal, Prog.wait (1000 * cfgGet c "disposal_sec"),
           Prog.op Op.toFlush, Prog.wait (1000 * cfgGet c "post_flush_sec"),
           Prog.op Op.pumpOff, Prog.wait (cfgGet c "pump_switch_delay"),
           Prog.op Op.closeInlet, Prog.wait 2000, Prog.op Op.closeValves])
    (Prog.op Op.recFlush))

/-- The body of `filter_water` once `duration_sec` and `flush_needed`
have been resolved at its start: the optional pre-flush portion, then
`try:` `running_task_type = 'FILTERING'`, `start_filtering = time.time()`,
filter layout, `sleep_ms(pump_switch_delay)`, pump on,
`sleep(duration_sec)`, `finish_beeps()` (1600 ms of awaited beeps);
`finally:` `post_flush_filter()`, pump off, `sleep_ms(pump_switch_delay)`,
`close_inlet_valve()`, `sleep_ms(2000)`, `close_valves()`,
`last_filtering = time.time()`. -/
def filter_water_prog (c : Cfg) (durationSec : Int) (flushNeeded : Bool) : Prog :=
  let main := Prog.tryFin
    (pseq [Prog.op Op.setTypeFiltering, Prog.op Op.markStart,
           Prog.op Op.toFilter, Prog.wait (cfgGet c "pump_switch_delay"),
           Prog.op Op.pumpOn, Prog.wait (1000 * durationSec), Prog.wait 1600])
    (pseq [post_flush_filter c, Prog.op Op.pumpOff,
           Prog.wait (cfgGet c "pump_switch_delay"), Prog.op Op.closeInlet,
           Prog.wait 2000, Prog.op Op.closeValves, Prog.op Op.recFilterEnd])
  if flushNeeded then Prog.seq (pre_flush_filter c) main else main

/-- `flush_needed = time.time() - max(last_flush, last_filtering) >
CONFIG['water_clean_sec']` at the start of `filter_water`. -/
def flush_needed (c : Cfg) (s : St) : Bool :=
  decide (s.now - max s.lastFlush s.lastFiltering > cfgGet c "water_clean_sec")

/-- `filter_water(duration_sec=None)` as started in state `s`:
`duration_sec` defaults to `CONFIG['filter_sec']`, and the pre-flush
portion is prepended iff `flush_needed`. -/
def filter_water (c : Cfg) (durOpt : Option Int) (s : St) : Prog :=
  filter_water_prog c (durOpt.getD (cfgGet c "filter_sec")) (flush_needed c s)

/-! ## The `uasyncio` event loop: tasks, the task slot, and `handle_button`

`handle_button` and `check_auto_flush` share the globals `running_task`
(the task slot) and `running_task_type`.  Cancelling a task only schedules
a `CancelledError`; the cancelled coroutine then unwinds (running its
`finally` blocks) on the next scheduler pass, and a task created with
`create_task` starts on the next scheduler pass as well — both before any
further wall-clock time elapses.  The simulator below replays exactly this
discipline: at each event (a button dispatch, or a sleeping task's wake-up
time) it advances the clock to the event time and runs the affected
coroutines until they park on their next wait. -/

/-- A task held by the event loop: its resumable coroutine, the absolute
millisecond time at which its current wait completes (if parked), and
whether it has terminated. -/
structure SimTask where
  exec : TaskExec
  wake : Option Int
  finished : Bool
  deriving DecidableEq, Repr

/-- The whole interpreter state: globals, `CONFIG`, the last content
written by `write_config`, every task ever created, the task slot
`running_task` (`none` is the initial `DummyTask`, which is always done),
and the not-yet-dispatched button presses (dispatch time, class),
ascending. -/
structure Sim where
  st : St
  config : Cfg
  lastWrite : Option Cfg
  tasks : List SimTask
  slot : Option Nat
  presses : List (Int × Press)
  deriving DecidableEq, Repr

/-- Outcome of running one coroutine until it parks or terminates. -/
structure ActiveRes where
  exec : TaskExec
  st : St
  parkMs : Option Int
  deriving DecidableEq, Repr

/-- Run a coroutine until it parks on a wait (returning the wait length)
or terminates (`parkMs = none`). -/
def runActive : Nat → TaskExec → St → ActiveRes
  | 0, e, s => ⟨e, s, some 0⟩
  | n + 1, e, s =>
    match stepTask e s with
    | StepRes.finished s' => ⟨e, s', none⟩
    | StepRes.cont e' s' => runActive n e' s'
    | StepRes.park e' d s' => ⟨e', s', some d⟩

/-- `running_task.done()`: the `DummyTask` is always done, a real task is
done once its coroutine has terminated. -/
def slotDone (s : Sim) : Bool :=
  match s.slot with
  | none => true
  | some i => ((s.tasks.get? i).map SimTask.finished).getD true

/-- Resume task `i` now (at the current clock) and run it until it parks
again or terminates. -/
def runTaskIdx (i : Nat) (s : Sim) : Sim :=
  match s.tasks.get? i with
  | none => s
  | some t =>
    if t.finished then s else
    let r := runActive 300 t.exec s.st
    let t' : SimTask :=
      match r.parkMs with
      | none => ⟨r.exec, none, true⟩
      | some d => ⟨r.exec, some (r.st.clock + d), false⟩
    { s with st := r.st, tasks := s.tasks.set i t' }

/-- `running_task.cancel()` on task `i` followed by the scheduler pass
that delivers the `CancelledError`: the task aborts its current wait and
unwinds (running its `finally` blocks) until it parks inside a `finally`
or terminates. -/
def cancelTask (i : Nat) (s : Sim) : Sim :=
  match s.tasks.get? i with
  | none => s
  | some t =>
    if t.finished then s else
    let s' := { s with
      tasks := s.tasks.set i ⟨⟨t.exec.cur, t.exec.stack, Mode.unwinding⟩, none, false⟩ }
    runTaskIdx i s'

/-- `running_task = event_loop.create_task(...)`: append a new task, point
the slot at it, and run it until its first park. -/
def spawnTask (p : Prog) (s : Sim) : Sim :=
  let idx := s.tasks.length
  let s' := { s with
    tasks := s.tasks ++ [⟨⟨p, [], Mode.normal⟩, none, false⟩], slot := some idx }
  runTaskIdx idx s'

/-- The `create_task` targets of `handle_button` (the coroutine argument
is fixed when the task is created; the coroutine body runs later). -/
inductive TaskSpec where
  | longFlush                     -- long_flush_filter()
  | filterWater (durOpt : Option Int)  -- filter_water() / filter_water(60*60)
  deriving DecidableEq, Repr

/-- What the branch ladder of `handle_button` decides to do, given the
press class, whether `running_task.done()` was false, and the current
`running_task_type`. -/
inductive BtnAct where
  | start (spec : TaskSpec)  -- running_task = event_loop.create_task(...)
  | saveFilterSec            -- CONFIG['filter_sec'] = ...; write_config(CONFIG)
  | nothing
  deriving DecidableEq, Repr

/-- The branch ladder of `handle_button`: with a running task it is
`if super_long / elif long and FILTERING / elif long and FLUSHING /
elif FLUSHING / (nothing)`, on an idle system it is
`if super_long / elif long / else short`. -/
def buttonAction (cls : Press) (running : Bool) (tt : Option TType) : BtnAct :=
  if running then
    if cls = Press.superLong then BtnAct.start TaskSpec.longFlush
    else if cls = Press.long ∧ tt = some TType.filtering then BtnAct.saveFilterSec
    else if cls = Press.long ∧ tt = some TType.flushing then
      BtnAct.start (TaskSpec.filterWater (some (60 * 60)))
    else if tt = some TType.flushing then
      BtnAct.start (TaskSpec.filterWater none)
    else BtnAct.nothing
  else
    if cls = Press.superLong then BtnAct.start TaskSpec.longFlush
    else if cls = Press.long then BtnAct.start (TaskSpec.filterWater (some (60 * 60)))
    else BtnAct.start (TaskSpec.filterWater none)

/-- Materialize a created coroutine when it first runs (this is when
`filter_water` resolves its default duration and its `flush_needed`
check against the then-current globals). -/
def buildTask (c : Cfg) (sp : TaskSpec) (s : St) : Prog :=
  match sp with
  | TaskSpec.longFlush => long_flush_filter c
  | TaskSpec.filterWater durOpt => filter_water c durOpt s

/-- The dispatch part of `handle_button` (after the press has been
classified and its feedback beep played), in the source's order:
if a running task exists it is always cancelled (`cancel()` only
schedules the `CancelledError`); the branch ladder then runs
synchronously — reading `running_task_type` as it stood at the press and,
in the long/FILTERING branch, computing and persisting the new
`filter_sec` at once; only when the handler yields does the scheduler
deliver the cancellation (running the cancelled task's `finally` blocks)
and start the newly created task, if any. -/
def dispatch (cls : Press) (s : Sim) : Sim :=
  let running := ! slotDone s
  let act := buttonAction cls running s.st.taskType
  let s1 :=
    match act with
    | BtnAct.saveFilterSec =>
      let c' := setKey s.config "filter_sec" (s.st.now - s.st.startFiltering)
      { s with config := c', lastWrite := some (write_config c') }
    | _ => s
  let s2 := if running then cancelTask (s1.slot.getD 0) s1 else s1
  match act with
  | BtnAct.start sp => spawnTask (buildTask s2.config sp s2.st) s2
  | _ => s2

/-- One iteration of the `check_auto_flush` loop: `await uasyncio.sleep(1)`
(the 1-second poll), then `continue` if `not running_task.done()`;
otherwise read `t = time.time()` and start `auto_flush_filter()` iff
`t - max(last_flush, last_filtering) > CONFIG['auto_flush_sec']`. -/
def check_auto_flush_iter (s : Sim) : Sim :=
  let s := { s with st := { s.st with clock := s.st.clock + 1000 } }
  if ! slotDone s then s
  else
    let t := s.st.now
    if t - max s.st.lastFlush s.st.lastFiltering > cfgGet s.config "auto_flush_sec" then
      spawnTask (auto_flush_filter s.config) s
    else s

/-- The earliest wake-up among unfinished parked tasks (ties: the task
created first, matching the scheduler's queue order). -/
def nextWake (s : Sim) : Option (Nat × Int) :=
  s.tasks.enum.foldl (fun acc it =>
    match it.2.wake, it.2.finished with
    | some w, false =>
      match acc with
      | none => some (it.1, w)
      | some jw => if w < jw.2 then some (it.1, w) else some jw
    | _, _ => acc) none

/-- Process the next event: the earlier of the next button dispatch and
the next task wake-up.  The clock jumps to the event time. -/
def processNext (s : Sim) : Sim :=
  match s.presses, nextWake s with
  | [], none => s
  | (tp, cls) :: rest, none =>
      dispatch cls { s with presses := rest, st := { s.st with clock := tp } }
  | [], some iw =>
      runTaskIdx iw.1 { s with st := { s.st with clock := iw.2 } }
  | (tp, cls) :: rest, some iw =>
      if tp < iw.2 then
        dispatch cls { s with presses := rest, st := { s.st with clock := tp } }
      else
        runTaskIdx iw.1 { s with st := { s.st with clock := iw.2 } }

/-- The globals at boot (`last_flush = last_reflush = last_filtering =
start_filtering = 0`, no task type), followed by `init()`: `set_pump(False)`
and `close_valves()`. -/
def initSt : St :=
  applyOp Op.closeValves (applyOp Op.pumpOff
    ⟨false, Layout.closed, 0, 0, 0, none, 0, 0, []⟩)

/-- A three-press operator schedule (dispatch times in ms after boot):
a short press at t = 400 s (starts a filtration), a super-long press at
t = 500 s (cancels the filtration and starts a long flush, leaving the
filtration's cleanup running concurrently), and a short press at
t = 530.3 s (cancels the long flush and starts a second filtration while
the first filtration's cleanup is still closing the valves). -/
def scenarioPresses : List (Int × Press) :=
  [(400000, Press.short), (500000, Press.superLong), (530300, Press.short)]

/-- Boot state of the simulator with the scenario presses pending
(`config.json` absent, so `CONFIG` keeps its defaults). -/
def scenarioSim : Sim :=
  ⟨initSt, defaultConfig, none, [], none, scenarioPresses⟩

/-- The simulator after the first `n` events of the scenario. -/
def runScenario : Nat → Sim
  | 0 => scenarioSim
  | n + 1 => processNext (runScenario n)

/-- A state 400 s after power-up with the boot globals (used as a concrete
start state for runs of single sequences). -/
def st0 : St := { initSt with clock := 400000 }

/-- A concrete interpreter state in which a filtration task occupies the
slot (`running_task_type = 'FILTERING'`) and `CONFIG` was merged at boot
from a file that contained the unknown key `"extra_key"`. -/
def witnessSim : Sim :=
  ⟨{ initSt with taskType := some TType.filtering, clock := 500000, startFiltering := 471 },
   dictUpdate defaultConfig [("extra_key", 7)], none,
   [⟨⟨Prog.skip, [], Mode.normal⟩, some 1192000, false⟩], some 0, []⟩

/-- The scenario state after five events, with the clock advanced to a
press at t = 500 s: a filtration sequence is running and parked on its
main `sleep(duration_sec)` wait. -/
def s5 : Sim := { runScenario 5 with st := { (runScenario 5).st with clock := 500000 } }

/-! Helper lemmas about the event-loop primitives. -/

lemma runTaskIdx_config (i : Nat) (s : Sim) : (runTaskIdx i s).config = s.config := by
  unfold runTaskIdx
  cases s.tasks.get? i with
  | none => rfl
  | some t =>
    by_cases hf : t.finished
    · simp [hf]
    · cases (runActive 300 t.exec s.st).parkMs <;> simp [hf]

lemma runTaskIdx_lastWrite (i : Nat) (s : Sim) :
    (runTaskIdx i s).lastWrite = s.lastWrite := by
  unfold runTaskIdx
  cases s.tasks.get? i with
  | none => rfl
  | some t =>
    by_cases hf : t.finished
    · simp [hf]
    · cases (runActive 300 t.exec s.st).parkMs <;> simp [hf]

lemma runTaskIdx_len (i : Nat) (s : Sim) :
    (runTaskIdx i s).tasks.length = s.tasks.length := by
  unfold runTaskIdx
  cases s.tasks.get? i with
  | none => rfl
  | some t =>
    by_cases hf : t.finished
    · simp [hf]
    · cases (runActive 300 t.exec s.st).parkMs <;> simp [hf]

lemma cancelTask_config (i : Nat) (s : Sim) : (cancelTask i s).config = s.config := by
  unfold cancelTask
  cases s.tasks.get? i with
  | none => rfl
  | some t =>
    by_cases hf : t.finished
    · simp [hf]
    · simp [hf, runTaskIdx_config]

lemma cancelTask_lastWrite (i : Nat) (s : Sim) :
    (cancelTask i s).lastWrite = s.lastWrite := by
  unfold cancelTask
  cases s.tasks.get? i with
  | none => rfl
  | some t =>
    by_cases hf : t.finished
    · simp [hf]
    · simp [hf, runTaskIdx_lastWrite]

lemma cancelTask_len (i : Nat) (s : Sim) :
    (cancelTask i s).tasks.length = s.tasks.length := by
  unfold cancelTask
  cases s.tasks.get? i with
  | none => rfl
  | some t =>
    by_cases hf : t.finished
    · simp [hf]
    · simp only [hf, if_false, Bool.false_eq_true]
      rw [runTaskIdx_len]
      simp

lemma spawnTask_len (p : Prog) (s : Sim) :
    (spawnTask p s).tasks.length = s.tasks.length + 1 := by
  unfold spawnTask
  rw [runTaskIdx_len]
  simp

/-- Whether a JSON object contains a key. -/
def hasKey (d : Cfg) (k : String) : Bool :=
  (d.find? (fun kv => kv.1 = k)).isSome

lemma find?_replace_self (k : String) (v : Int) (d : Cfg)
    (h : d.any (fun kv => kv.1 = k) = true) :
    (d.map (fun kv => if kv.1 = k then (k, v) else kv)).find?
      (fun kv => decide (kv.1 = k)) = some (k, v) := by
  induction d with
  | nil => simp at h
  | cons x xs ih =>
    by_cases hx : x.1 = k
    · rw [List.map_cons, if_pos hx, List.find?_cons_of_pos _ (by simp)]
    · have h' : xs.any (fun kv => decide (kv.1 = k)) = true := by
        simpa [List.any_cons, hx] using h
      rw [List.map_cons, if_neg hx, List.find?_cons_of_neg _ (by simp [hx]), ih h']

lemma find?_replace_ne (k k' : String) (v : Int) (d : Cfg) (hk : k' ≠ k) :
    (d.map (fun kv => if kv.1 = k then (k, v) else kv)).find?
      (fun kv => decide (kv.1 = k')) = d.find? (fun kv => decide (kv.1 = k')) := by
  induction d with
  | nil => rfl
  | cons x xs ih =>
    by_cases hx : x.1 = k
    · rw [List.map_cons, if_pos hx,
        List.find?_cons_of_neg _
          (by simp only [decide_eq_true_eq]; exact fun hc => hk hc.symm),
        List.find?_cons_of_neg _
          (by simp only [decide_eq_true_eq, hx]; exact fun hc => hk hc.symm), ih]
    · by_cases hx' : x.1 = k'
      · rw [List.map_cons, if_neg hx, List.find?_cons_of_pos _ (by simp [hx']),
          List.find?_cons_of_pos _ (by simp [hx'])]
      · rw [List.map_cons, if_neg hx, List.find?_cons_of_neg _ (by simp [hx']),
          List.find?_cons_of_neg _ (by simp [hx']), ih]

lemma cfgGet_setKey_self (d : Cfg) (k : String) (v : Int) :
    cfgGet (setKey d k v) k = v := by
  unfold setKey cfgGet
  by_cases h : d.any (fun kv => kv.1 = k)
  · simp only [h, if_true]
    rw [find?_replace_self k v d h]
    rfl
  · simp only [h, Bool.false_eq_true, if_false]
    rw [List.find?_append]
    have hnone : d.find? (fun kv => decide (kv.1 = k)) = none := by
      rw [List.find?_eq_none]
      intro x hx hcontra
      simp only [List.any_eq_true] at h
      exact h ⟨x, hx, hcontra⟩
    rw [hnone]
    simp [List.find?]

lemma cfgGet_setKey_ne (d : Cfg) (k k' : String) (v : Int) (hk : k' ≠ k) :
    cfgGet (setKey d k v) k' = cfgGet d k' := by
  unfold setKey cfgGet
  by_cases h : d.any (fun kv => kv.1 = k)
  · simp only [h, if_true]
    rw [find?_replace_ne k k' v d hk]
  · simp only [h, Bool.false_eq_true, if_false]
    rw [List.find?_append]
    have hone : ([((k, v) : String × Int)].find? (fun kv => decide (kv.1 = k'))) = none := by
      rw [List.find?_eq_none]
      intro x hx hcontra
      simp only [List.mem_singleton] at hx
      subst hx
      simp only [decide_eq_true_eq] at hcontra
      exact hk hcontra.symm
    rw [hone]
    cases d.find? (fun kv => decide (kv.1 = k')) <;> rfl

lemma hasKey_setKey_self (d : Cfg) (k : String) (v : Int) :
    hasKey (setKey d k v) k = true := by
  unfold hasKey setKey
  by_cases h : d.any (fun kv => kv.1 = k)
  · simp only [h, if_true]
    rw [find?_replace_self k v d h]
    rfl
  · simp only [h, Bool.false_eq_true, if_false]
    rw [List.find?_append]
    cases d.find? (fun kv => decide (kv.1 = k)) <;> simp [List.find?]

lemma hasKey_setKey_mono (d : Cfg) (k k0 : String) (v : Int)
    (h : hasKey d k0 = true) : hasKey (setKey d k v) k0 = true := by
  by_cases hk : k0 = k
  · subst hk
    exact hasKey_setKey_self d k0 v
  · unfold hasKey setKey
    unfold hasKey at h
    by_cases ha : d.any (fun kv => kv.1 = k)
    · simp only [ha, if_true]
      rw [find?_replace_ne k k0 v d hk]
      exact h
    · simp only [ha, Bool.false_eq_true, if_false]
      rw [List.find?_append]
      cases hd : d.find? (fun kv => decide (kv.1 = k0))
      · rw [hd] at h
        simp at h
      · rfl

lemma dictUpdate_cons (d : Cfg) (kv : String × Int) (m : Cfg) :
    dictUpdate d (kv :: m) = dictUpdate (setKey d kv.1 kv.2) m := rfl

lemma hasKey_dictUpdate_left (d m : Cfg) (k0 : String)
    (h : hasKey d k0 = true) : hasKey (dictUpdate d m) k0 = true := by
  induction m generalizing d with
  | nil => exact h
  | cons kv m ih =>
    rw [dictUpdate_cons]
    exact ih _ (hasKey_setKey_mono d kv.1 k0 kv.2 h)

lemma hasKey_dictUpdate_right (d m : Cfg) (k0 : String)
    (h : hasKey m k0 = true) : hasKey (dictUpdate d m) k0 = true := by
  induction m generalizing d with
  | nil => simp [hasKey, List.find?] at h
  | cons kv m ih =>
    rw [dictUpdate_cons]
    by_cases hk : kv.1 = k0
    · apply hasKey_dictUpdate_left
      rw [← hk]
      exact hasKey_setKey_self d kv.1 kv.2
    · apply ih
      unfold hasKey at h
      rw [List.find?_cons_of_neg _ (by simp [hk])] at h
      exact h

lemma hasKey_of_mem (d : Cfg) (kv : String × Int) (h : kv ∈ d) :
    hasKey d kv.1 = true := by
  unfold hasKey
  induction d with
  | nil => simp at h
  | cons x xs ih =>
    by_cases hx : x.1 = kv.1
    · rw [List.find?_cons_of_pos _ (by simp [hx])]
      rfl
    · rcases List.mem_cons.mp h with h | h
      · exact absurd (by rw [h]) hx
      · rw [List.find?_cons_of_neg _ (by simp [hx])]
        exact ih h

lemma slotDone_set_st (s : Sim) (st' : St) :
    slotDone { s with st := st' } = slotDone s := rfl

/-- Shared evaluation of `dispatch` for a long press while a filtration
task is running: the handler sets and persists `filter_sec`, and the only
other effect is the delivery of the cancellation to the running task. -/
lemma dispatch_long_filtering (s : Sim) (i : Nat) (h1 : s.slot = some i)
    (h2 : slotDone s = false) (h3 : s.st.taskType = some TType.filtering) :
    dispatch Press.long s =
      cancelTask i { s with
        config := setKey s.config "filter_sec" (s.st.now - s.st.startFiltering),
        lastWrite :=
          some (write_config (setKey s.config "filter_sec" (s.st.now - s.st.startFiltering))) } := by
  unfold dispatch
  simp only [h2, h3, Bool.not_false, buttonAction, if_true, reduceCtorEq,
    decide_False, decide_True, Bool.false_and, Bool.true_and, if_false]
  simp [h1, buttonAction]

/-- Shared evaluation of `dispatch` for a short press while a filtration
task is running: no ladder branch matches, so the only effect is the
delivery of the cancellation; no task is started and `CONFIG` is not
touched. -/
lemma dispatch_short_filtering (s : Sim) (i : Nat) (h1 : s.slot = some i)
    (h2 : slotDone s = false) (h3 : s.st.taskType = some TType.filtering) :
    dispatch Press.short s = cancelTask i s := by
  unfold dispatch
  simp [h1, h2, h3, buttonAction]

set_option maxHeartbeats 3200000 in
/-- The big-step denotation `runCoro` agrees with the small-step frame
machine `runSeq` on the filtration and auto-flush sequences, at every
cancellation point (the index grids cover every wait of each program and
beyond) and on uncancelled runs. -/
lemma runSeq_agrees_runCoro :
    (∀ i, i < 12 →
      (runSeq (filter_water defaultConfig none st0) (some i) 77 st0).st =
        (runCoro (filter_water defaultConfig none st0) (some i) 77 st0).st) ∧
    (∀ i, i < 14 →
      (runSeq (auto_flush_filter defaultConfig) (some i) 5 st0).st =
        (runCoro (auto_flush_filter defaultConfig) (some i) 5 st0).st) ∧
    (runSeq (filter_water defaultConfig none st0) none 0 st0).st =
      (runCoro (filter_water defaultConfig none st0) none 0 st0).st := by decide

lemma cfg_auto_flush_default : cfgGet defaultConfig "auto_flush_sec" = 28800 := rfl

/-- Support for the C2 scenario: with the default 8-hour threshold, the
auto-flush monitor cannot start anything at any poll in the scenario's
time window (the timing store is nonnegative and the clock stays far
below the threshold), whatever the slot state. -/
lemma auto_flush_monitor_inert_early (s : Sim) (hcfg : s.config = defaultConfig)
    (hlf : 0 ≤ s.st.lastFlush) (_hlfi : 0 ≤ s.st.lastFiltering)
    (hc : s.st.clock ≤ 28797000) :
    (check_auto_flush_iter s).tasks = s.tasks := by
  unfold check_auto_flush_iter
  by_cases hd : slotDone s
  · have hm : (0 : Int) ≤ max s.st.lastFlush s.st.lastFiltering :=
      le_trans hlf (le_max_left _ _)
    have hcond : ¬ (cfgGet s.config "auto_flush_sec" <
        (s.st.clock + 1000) / 1000 - max s.st.lastFlush s.st.lastFiltering) := by
      rw [hcfg, cfg_auto_flush_default]
      omega
    simp only [slotDone_set_st, hd, Bool.not_true, Bool.false_eq_true, if_false, St.now]
    rw [if_neg hcond]
  · simp only [Bool.not_eq_true] at hd
    simp [slotDone_set_st, hd]

/-! Claim theorems. -/

/-- C2: the spec claims that in every reachable state pump-on implies the
valve layout is Flush, Disposal or Filter.  The code violates this: in the
three-press scenario (short at t = 400 s, super-long at t = 500 s, short at
t = 530.3 s, all with the default configuration) the cancelled first
filtration's orphaned cleanup puts the valves into the Drain layout at
t = 531 s while the newly started second filtration turns the pump on at
t = 531.3 s — after event 10 the pump is ON in the Drain layout.  The
violation persists until the orphaned cleanup's `close_valves` runs at
t = 533 s (event 11), whose safety check then forces the pump off. -/
theorem c2_pump_on_in_drain_layout_reachable :
    (runScenario 10).st.pump = true ∧ (runScenario 10).st.layout = Layout.drain ∧
    (runScenario 11).st.safetyCount = 1 ∧ (runScenario 11).st.pump = false := by
  refine ⟨rfl, rfl, rfl, rfl⟩

/-- C5 (counterexample): the claim says a duration of exactly 800 ms is
classified as a long press; the code classifies it as short, because
`long_pressed = 800 < ms_duration < 5000` is strict at 800. -/
theorem c5_800ms_is_short : classify 800 = Press.short ∧ classify 800 ≠ Press.long := by
  refine ⟨rfl, by decide⟩

/-- C5 (amended): the classifier maps durations ≤ 800 ms to short,
801–4999 ms to long and ≥ 5000 ms to super-long; in particular 799 and
800 ms are short, 801 and 4999 ms are long, and 5000 ms is super-long. -/
theorem c5_classification_boundaries :
    (∀ d : Int, classify d = Press.short ↔ d ≤ 800) ∧
    (∀ d : Int, classify d = Press.long ↔ 800 < d ∧ d < 5000) ∧
    (∀ d : Int, classify d = Press.superLong ↔ 5000 ≤ d) ∧
    classify 799 = Press.short ∧ classify 800 = Press.short ∧
    classify 801 = Press.long ∧ classify 4999 = Press.long ∧
    classify 5000 = Press.superLong := by
  refine ⟨?_, ?_, ?_, rfl, rfl, rfl, rfl, rfl⟩ <;>
    intro d <;> unfold classify <;> split_ifs with h1 h2 <;>
    constructor <;> intro h <;> simp_all <;> omega

/-- C6: the two layout changes to a non-pump-safe preset (`close_valves`,
the Closed layout, and `close_inlet_valve`, the Drain layout) first check
the pump pin: if it is still on they emit the safety-shutdown message and
force it off before reconfiguring the valves; either way the pump ends
off and the requested layout is set. -/
theorem c6_close_presets_force_pump_off (s : St) :
    (close_valves s).pump = false ∧ (close_valves s).layout = Layout.closed ∧
    (close_valves s).safetyCount = s.safetyCount + (if s.pump then 1 else 0) ∧
    (close_inlet_valve s).pump = false ∧ (close_inlet_valve s).layout = Layout.drain ∧
    (close_inlet_valve s).safetyCount = s.safetyCount + (if s.pump then 1 else 0) := by
  unfold close_valves close_inlet_valve
  by_cases h : s.pump <;> simp [h]

/-- C9 (counterexample): the claim says reading the configuration never
raises even when the file's contents are corrupt; but corrupt contents
make `ujson.loads` raise `ValueError`, which the `except OSError` clause
of `read_config` does not catch, so the read raises. -/
theorem c9_corrupt_config_raises :
    read_config FileState.corrupt = Except.error PyError.valueError := rfl

/-- C9 (amended): an absent (or inaccessible) configuration file raises
`OSError`, which is caught, and every field keeps its compiled-in
default; a file that parses is merged over the defaults; but corrupt
contents raise an uncaught `ValueError`, so the boot-time read is not
failure-proof. -/
theorem c9_config_read_fallback :
    init_config FileState.absent = Except.ok defaultConfig ∧
    (∀ m, init_config (FileState.valid m) = Except.ok (dictUpdate defaultConfig m)) ∧
    init_config FileState.corrupt = Except.error PyError.valueError :=
  ⟨rfl, fun _ => rfl, rfl⟩

/-- C1 (counterexample): the claim says a long press during Filtering does
not cancel the running filtration, which continues uninterrupted.  In the
reachable state `s5` (a filtration parked on its main wait until
t = 1192 s, Filter layout), dispatching a long press at t = 500 s delivers
a cancellation to the task: afterwards its stack carries the cancellation
marker, it is re-parked at t = 530 s inside its cleanup's post-flush, and
the valves are back in the Flush layout — the filtration run was
interrupted. -/
theorem c1_counterexample :
    slotDone s5 = false ∧ s5.st.taskType = some TType.filtering ∧
    ((s5.tasks.get? 0).map (fun t => t.wake)) = some (some 1192000) ∧
    s5.st.layout = Layout.filter ∧
    (((dispatch Press.long s5).tasks.get? 0).map
      (fun t => t.exec.stack.contains Frame.kCancel)) = some true ∧
    ((dispatch Press.long s5).tasks.get? 0).map (fun t => t.wake) = some (some 530000) ∧
    (dispatch Press.long s5).st.layout = Layout.flush :=
  ⟨rfl, rfl, rfl, rfl, rfl, rfl, rfl⟩

/-- C1 (amended): a long press while the task state is Filtering cancels
the running filtration (its cleanup still runs), records
`filter_sec = now − start_filtering` into `CONFIG`, persists the whole
configuration, and starts no new sequence. -/
theorem c1_long_press_saves_and_cancels (s : Sim) (i : Nat) (h1 : s.slot = some i)
    (h2 : slotDone s = false) (h3 : s.st.taskType = some TType.filtering) :
    dispatch Press.long s =
      cancelTask i { s with
        config := setKey s.config "filter_sec" (s.st.now - s.st.startFiltering),
        lastWrite :=
          some (write_config (setKey s.config "filter_sec" (s.st.now - s.st.startFiltering))) } ∧
    (dispatch Press.long s).tasks.length = s.tasks.length ∧
    cfgGet (dispatch Press.long s).config "filter_sec" = s.st.now - s.st.startFiltering ∧
    (dispatch Press.long s).lastWrite = some (write_config (dispatch Press.long s).config) := by
  have hEq := dispatch_long_filtering s i h1 h2 h3
  refine ⟨hEq, ?_, ?_, ?_⟩
  · rw [hEq, cancelTask_len]
  · rw [hEq, cancelTask_config]
    exact cfgGet_setKey_self s.config "filter_sec" (s.st.now - s.st.startFiltering)
  · rw [hEq, cancelTask_lastWrite, cancelTask_config]

theorem c1_long_press_saves_and_cancels_witness :
    (s5.slot = some 0 ∧ slotDone s5 = false ∧ s5.st.taskType = some TType.filtering) ∧
    ((dispatch Press.long s5).tasks.length = s5.tasks.length ∧
      cfgGet (dispatch Press.long s5).config "filter_sec" =
        s5.st.now - s5.st.startFiltering ∧
      (dispatch Press.long s5).lastWrite = some (write_config (dispatch Press.long s5).config)) :=
  ⟨⟨rfl, rfl, rfl⟩, (c1_long_press_saves_and_cancels s5 0 rfl rfl rfl).2⟩

/-- C3 (counterexample): the claim says a short press during Filtering
cancels the current run and starts a new Filtration with the default
duration.  In the reachable state `s5` the cancellation is delivered, but
no branch of the ladder matches (the `elif running_task_type == 'FLUSHING'`
branch does not apply), so no new task is created: the task list still has
length 1 where a restart would have made it 2. -/
theorem c3_counterexample :
    slotDone s5 = false ∧ s5.st.taskType = some TType.filtering ∧
    s5.tasks.length = 1 ∧ (dispatch Press.short s5).tasks.length = 1 ∧
    (((dispatch Press.short s5).tasks.get? 0).map
      (fun t => t.exec.stack.contains Frame.kCancel)) = some true :=
  ⟨rfl, rfl, rfl, rfl, rfl⟩

/-- C3 (amended): a short press while the task state is Filtering cancels
the running filtration and does nothing else: no new sequence is started
and the configuration is neither changed nor persisted. -/
theorem c3_short_press_cancels_only (s : Sim) (i : Nat) (h1 : s.slot = some i)
    (h2 : slotDone s = false) (h3 : s.st.taskType = some TType.filtering) :
    dispatch Press.short s = cancelTask i s ∧
    (dispatch Press.short s).tasks.length = s.tasks.length ∧
    (dispatch Press.short s).config = s.config ∧
    (dispatch Press.short s).lastWrite = s.lastWrite := by
  have hEq := dispatch_short_filtering s i h1 h2 h3
  refine ⟨hEq, ?_, ?_, ?_⟩
  · rw [hEq, cancelTask_len]
  · rw [hEq, cancelTask_config]
  · rw [hEq, cancelTask_lastWrite]

theorem c3_short_press_cancels_only_witness :
    (s5.slot = some 0 ∧ slotDone s5 = false ∧ s5.st.taskType = some TType.filtering) ∧
    ((dispatch Press.short s5).tasks.length = s5.tasks.length ∧
      (dispatch Press.short s5).config = s5.config ∧
      (dispatch Press.short s5).lastWrite = s5.lastWrite) :=
  ⟨⟨rfl, rfl, rfl⟩, (c3_short_press_cancels_only s5 0 rfl rfl rfl).2⟩

/-- C8: one iteration of the auto-flush monitor sleeps 1 s, then starts
the standalone auto-flush sequence (one new task) iff the task slot is
idle (`running_task.done()`) and
`now − max(last_flush, last_filtering) > auto_flush_sec`; when the slot
is not idle the iteration changes nothing but the clock — it never starts
a flush while the slot is non-idle. -/
theorem c8_auto_flush_iff (s : Sim) :
    ((check_auto_flush_iter s).tasks.length = s.tasks.length + 1 ↔
      (slotDone s = true ∧
        (s.st.clock + 1000) / 1000 - max s.st.lastFlush s.st.lastFiltering >
          cfgGet s.config "auto_flush_sec")) ∧
    (slotDone s = false →
      check_auto_flush_iter s = { s with st := { s.st with clock := s.st.clock + 1000 } }) := by
  unfold check_auto_flush_iter
  by_cases hd : slotDone s
  · by_cases hc : (s.st.clock + 1000) / 1000 - max s.st.lastFlush s.st.lastFiltering >
      cfgGet s.config "auto_flush_sec"
    · simp only [slotDone_set_st, hd, Bool.not_true, Bool.false_eq_true, if_false, St.now]
      rw [if_pos hc]
      simp [spawnTask_len, hd, hc]
    · simp only [slotDone_set_st, hd, Bool.not_true, Bool.false_eq_true, if_false, St.now]
      rw [if_neg hc]
      simp [hd, hc]
  · simp only [Bool.not_eq_true] at hd
    simp [slotDone_set_st, hd]

theorem c8_auto_flush_iff_witness :
    (check_auto_flush_iter scenarioSim).tasks.length = scenarioSim.tasks.length + 1 ↔
      (slotDone scenarioSim = true ∧
        (scenarioSim.st.clock + 1000) / 1000 -
            max scenarioSim.st.lastFlush scenarioSim.st.lastFiltering >
          cfgGet scenarioSim.config "auto_flush_sec") :=
  (c8_auto_flush_iff scenarioSim).1

/-- C10: when a long press during Filtering persists the configuration,
`write_config(CONFIG)` writes the entire current dictionary: the written
content is `CONFIG` with only `filter_sec` changed; every key of the
compiled-in defaults is present in it, and so is every (possibly unknown)
key that was merged in from the configuration file at boot. -/
theorem c10_long_press_writes_whole_config (s : Sim) (fm : Cfg) (i : Nat)
    (hb : s.config = dictUpdate defaultConfig fm) (h1 : s.slot = some i)
    (h2 : slotDone s = false) (h3 : s.st.taskType = some TType.filtering) :
    (dispatch Press.long s).lastWrite =
      some (setKey s.config "filter_sec" (s.st.now - s.st.startFiltering)) ∧
    cfgGet (setKey s.config "filter_sec" (s.st.now - s.st.startFiltering)) "filter_sec" =
      s.st.now - s.st.startFiltering ∧
    (∀ k, k ≠ "filter_sec" →
      cfgGet (setKey s.config "filter_sec" (s.st.now - s.st.startFiltering)) k =
        cfgGet s.config k) ∧
    (∀ kv ∈ defaultConfig,
      hasKey (setKey s.config "filter_sec" (s.st.now - s.st.startFiltering)) kv.1 = true) ∧
    (∀ kv ∈ fm,
      hasKey (setKey s.config "filter_sec" (s.st.now - s.st.startFiltering)) kv.1 = true) := by
  refine ⟨?_, cfgGet_setKey_self _ _ _, fun k hk => cfgGet_setKey_ne _ _ _ _ hk, ?_, ?_⟩
  · rw [dispatch_long_filtering s i h1 h2 h3, cancelTask_lastWrite]
    rfl
  · intro kv hm
    exact hasKey_setKey_mono _ _ _ _
      (by rw [hb]; exact hasKey_dictUpdate_left _ _ _ (hasKey_of_mem _ _ hm))
  · intro kv hm
    exact hasKey_setKey_mono _ _ _ _
      (by rw [hb]; exact hasKey_dictUpdate_right _ _ _ (hasKey_of_mem _ _ hm))

theorem c10_long_press_writes_whole_config_witness :
    (witnessSim.config = dictUpdate defaultConfig [("extra_key", 7)] ∧
      witnessSim.slot = some 0 ∧ slotDone witnessSim = false ∧
      witnessSim.st.taskType = some TType.filtering) ∧
    (dispatch Press.long witnessSim).lastWrite =
      some (setKey witnessSim.config "filter_sec"
        (witnessSim.st.now - witnessSim.st.startFiltering)) :=
  ⟨⟨rfl, rfl, rfl, rfl⟩,
    (c10_long_press_writes_whole_config witnessSim [("extra_key", 7)] 0 rfl rfl rfl rfl).1⟩

/-- C4 (counterexample): the claim says cancelling a Filtration at any of
its wait points still runs its cleanup to completion.  Cancelling the
default filtration started from `st0` (where the pre-flush portion runs)
at its second wait — the `sleep(pre_flush_sec)` of `pre_flush_filter`,
just after the pump went on — runs no cleanup at all: `pre_flush_filter`'s
`finally` is `pass` and `filter_water`'s `try` has not been entered, so
the task ends with the pump still ON, the valves left in the Flush layout
(not Closed), and neither `last_flush` nor `last_filtering` updated. -/
theorem c4_counterexample :
    flush_needed defaultConfig st0 = true ∧
    (runCoro (filter_water defaultConfig none st0) (some 1) 0 st0).st.pump = true ∧
    (runCoro (filter_water defaultConfig none st0) (some 1) 0 st0).st.layout = Layout.flush ∧
    (runCoro (filter_water defaultConfig none st0) (some 1) 0 st0).st.lastFlush = 0 ∧
    (runCoro (filter_water defaultConfig none st0) (some 1) 0 st0).st.lastFiltering = 0 ∧
    st0.lastFlush = 0 ∧ st0.lastFiltering = 0 := by decide

/-- C4 (amended): cancelling the filtration at any wait point of its main
filtering stage (the waits inside `filter_water`'s `try`: the pump settle
delay, the filtering sleep, and the completion beeps — indices shifted by
3 when the pre-flush portion ran), at any sampled point within the wait,
does run the cleanup to completion: the task ends cancelled with the pump
OFF and the valves Closed, `last_flush` is set when the cleanup's
post-flush completes (cancel time + post_flush_sec) and `last_filtering`
when the valves close (cancel time + post_flush_sec + pump_switch_delay
+ 2 s) — not at the cancellation-time clock value itself.  Cancellations
during the pre-flush portion (see the counterexample) or during an
already-running cleanup skip the remaining cleanup. -/
theorem c4_main_stage_cancel_cleans_up :
    ∀ fn : Bool, ∀ i, i < 3 → ∀ e, e ∈ ([0, 137, 999] : List Int) →
      (runCoro (filter_water_prog defaultConfig 720 fn)
          (some ((if fn then 3 else 0) + i)) e st0).cancelled = true ∧
      (runCoro (filter_water_prog defaultConfig 720 fn)
          (some ((if fn then 3 else 0) + i)) e st0).st.pump = false ∧
      (runCoro (filter_water_prog defaultConfig 720 fn)
          (some ((if fn then 3 else 0) + i)) e st0).st.layout = Layout.closed ∧
      (runCoro (filter_water_prog defaultConfig 720 fn)
          (some ((if fn then 3 else 0) + i)) e st0).st.lastFlush =
        (400000 + (if fn then 71000 else 0) +
          (if i = 0 then e else if i = 1 then 1000 + e else 1000 + 720000 + e) + 30000) / 1000 ∧
      (runCoro (filter_water_prog defaultConfig 720 fn)
          (some ((if fn then 3 else 0) + i)) e st0).st.lastFiltering =
        (400000 + (if fn then 71000 else 0) +
          (if i = 0 then e else if i = 1 then 1000 + e else 1000 + 720000 + e) + 33000) / 1000 := by
  decide

theorem c4_main_stage_cancel_cleans_up_witness :
    ((1 : Nat) < 3 ∧ (137 : Int) ∈ ([0, 137, 999] : List Int)) ∧
    ((runCoro (filter_water_prog defaultConfig 720 true) (some 4) 137 st0).st.pump = false ∧
      (runCoro (filter_water_prog defaultConfig 720 true) (some 4) 137 st0).st.layout =
        Layout.closed) :=
  ⟨⟨by decide, by decide⟩,
    ⟨(c4_main_stage_cancel_cleans_up true 1 (by decide) 137 (by decide)).2.1,
     (c4_main_stage_cancel_cleans_up true 1 (by decide) 137 (by decide)).2.2.1⟩⟩

/-- C7: at the start of every `filter_water` run, the pre-flush+disposal
portion is prepended iff `time.time() − max(last_flush, last_filtering)`
exceeds `water_clean_sec` (structural conjunct, for every configuration,
duration argument and state); semantically, on a grid of timing states
straddling the boundary, the executed run performs the disposal step iff
that condition holds — so either a recent flush or a recent filtration
suffices to skip the pre-flush. -/
theorem c7_preflush_iff_elapsed :
    (∀ c : Cfg, ∀ durOpt : Option Int, ∀ s : St,
      filter_water c durOpt s =
        if s.now - max s.lastFlush s.lastFiltering > cfgGet c "water_clean_sec" then
          Prog.seq (pre_flush_filter c)
            (filter_water_prog c (durOpt.getD (cfgGet c "filter_sec")) false)
        else filter_water_prog c (durOpt.getD (cfgGet c "filter_sec")) false) ∧
    (∀ lf ∈ ([0, 99, 100, 101, 395] : List Int),
     ∀ lfi ∈ ([0, 99, 100, 101, 395] : List Int),
      (((runCoro (filter_water defaultConfig none
            { st0 with lastFlush := lf, lastFiltering := lfi }) none 0
            { st0 with lastFlush := lf, lastFiltering := lfi }).st.trace.contains
          Op.toDisposal) = true) ↔ 400 - max lf lfi > 300) := by
  constructor
  · intro c dOpt s
    unfold filter_water filter_water_prog flush_needed
    by_cases h : s.now - max s.lastFlush s.lastFiltering > cfgGet c "water_clean_sec"
    · simp [h]
    · simp [h]
  · decide

theorem c7_preflush_iff_elapsed_witness :
    ((99 : Int) ∈ ([0, 99, 100, 101, 395] : List Int) ∧
      (0 : Int) ∈ ([0, 99, 100, 101, 395] : List Int)) ∧
    ((((runCoro (filter_water defaultConfig none
          { st0 with lastFlush := 99, lastFiltering := 0 }) none 0
          { st0 with lastFlush := 99, lastFiltering := 0 }).st.trace.contains
        Op.toDisposal) = true) ↔ 400 - max (99 : Int) 0 > 300) :=
  ⟨⟨by decide, by decide⟩, c7_preflush_iff_elapsed.2 99 (by decide) 0 (by decide)⟩

end RoPump
